import Mathlib

/-!
Shallow embedding of the finance-tracker core (local ledger store,
subscription engine, read-side aggregations) from:

  src/src/services/subscriptionManager.ts   (processSubscriptions and the
    storage layer: sqliteBoolean, category/transaction CRUD, clearAllData,
    addSubscriptionTransaction, getDueSubscriptions,
    createSubscriptionOccurrence)
  src/src/context/DataContext.tsx           (getBalanceData,
    getCategorySpending, in-memory getTransactionsByDateRange)
  src/unnamed/part_009                      (default category constants)

Modelling conventions:
  * ISO-8601 date strings are modelled by a calendar date `JDate`
    (year / 0-based month / day, as in a JavaScript `Date`); the SQL and
    JavaScript string comparisons on such strings agree with the
    lexicographic order on (year, month, day).
  * JavaScript `Date` mutation (`setDate`, `setMonth`, `setFullYear`)
    is modelled with explicit day-overflow normalization, which is the
    ECMAScript behaviour (day counts past the end of a month roll into
    the following month).
  * `number` amounts are modelled as exact integers (the claims use
    amounts only in sums and comparisons), SQLite rows as Lean
    structures, tables as lists in insertion order, and thrown errors as
    `Except` results (an error leaves the store unchanged, matching the
    source where every `throw` happens before any write of the failing
    operation).
  * Fresh UUIDs (`generateUUID`) are passed in explicitly as parameters.
-/

namespace FinTrack

/-- Raw values a SQLite driver may hand back for a boolean column. -/
inductive SQLValue where
  | b (x : Bool)
  | num (n : Int)
  | str (s : String)
  | null
  | undef
  deriving DecidableEq, Repr

/-- Boundary boolean coercion, from `sqliteBoolean` (storage layer lines
75-80): literal booleans pass through, numbers compare to 1, strings
compare to "1", everything else (null/undefined/objects) is false. -/
def sqliteBoolean : SQLValue → Bool
  | .b x => x
  | .num n => n == 1
  | .str s => s == "1"
  | .null => false
  | .undef => false

/-- Transaction/category type: 'earning' | 'spending'. -/
inductive TxType where
  | earning
  | spending
  deriving DecidableEq, Repr

/-- Payment method: 'cash' | 'card'. -/
inductive PayMethod where
  | cash
  | card
  deriving DecidableEq, Repr

/-- Subscription interval: '2weeks' | 'month' | 'year' | 'custom'. -/
inductive SubInterval where
  | twoWeeks
  | month
  | year
  | custom
  deriving DecidableEq, Repr

/-- Calendar date denoted by an ISO date string / JavaScript `Date`.
`month` is 0-based (January = 0), as returned by `Date.getMonth`. -/
structure JDate where
  year : Int
  month : Nat
  day : Nat
  deriving DecidableEq, Repr

/-- Chronological (= lexicographic) order on dates, matching both the SQL
`<=` on ISO strings and JavaScript `Date` comparison. -/
def dateLE (a b : JDate) : Bool :=
  decide (a.year < b.year ∨ (a.year = b.year ∧
    (a.month < b.month ∨ (a.month = b.month ∧ a.day ≤ b.day))))

/-- Order on nullable date columns for `ORDER BY next_occurrence ASC`
(SQLite sorts NULLs first in ascending order). -/
def optDateLE : Option JDate → Option JDate → Bool
  | none, _ => true
  | some _, none => false
  | some a, some b => dateLE a b

/-- Gregorian leap-year rule (as implemented by JavaScript `Date`). -/
def isLeapYear (y : Int) : Bool :=
  y % 4 == 0 && (y % 100 != 0 || y % 400 == 0)

/-- Length of 0-based month `m` of year `y`. -/
def daysInMonth (y : Int) (m : Nat) : Nat :=
  if m == 1 then (if isLeapYear y then 29 else 28)
  else if m == 3 || m == 5 || m == 8 || m == 10 then 30
  else 31

/-- Successor month with year carry. -/
def nextMonth (y : Int) (m : Nat) : Int × Nat :=
  if m == 11 then (y + 1, 0) else (y, m + 1)

/-- Normalize a date whose day component may exceed the month length, the
way ECMAScript `Date` normalizes after `setDate`/`setMonth`: surplus days
roll into following months. `fuel` bounds the number of rolls. -/
def normDays : Nat → Int → Nat → Nat → JDate
  | 0, y, m, d => ⟨y, m, d⟩
  | fuel + 1, y, m, d =>
    if d ≤ daysInMonth y m then ⟨y, m, d⟩
    else
      let p := nextMonth y m
      normDays fuel p.1 p.2 (d - daysInMonth y m)

/-- JavaScript `date.setDate(n)` for the non-negative day counts the
source uses (`getDate() + 14`). -/
def jsSetDate (dt : JDate) (n : Nat) : JDate :=
  normDays (n / 28 + 2) dt.year dt.month n

/-- JavaScript `date.setMonth(getMonth() + k)`: month arithmetic with
year carry, then day-overflow normalization (Jan 31 + 1 month = Mar 2/3). -/
def jsAddMonths (dt : JDate) (k : Int) : JDate :=
  let t : Int := (dt.month : Int) + k
  normDays (dt.day / 28 + 2) (dt.year + Int.fdiv t 12) (Int.emod t 12).toNat dt.day

/-- JavaScript `date.setFullYear(getFullYear() + k)` (Feb 29 of a leap
year lands on Mar 1 in a non-leap target year). -/
def jsAddYears (dt : JDate) (k : Int) : JDate :=
  normDays (dt.day / 28 + 2) (dt.year + k) dt.month dt.day

/-- Next-occurrence computation: the `switch (subscription_interval)`
block that appears verbatim both in `addSubscriptionTransaction`
(lines 1011-1026) and in `createSubscriptionOccurrence` (lines
1244-1259). The `custom` case is guarded by JavaScript truthiness of
`subscription_custom_months`, so a missing or zero month count leaves
the date unchanged and no error is raised. An unset interval also
leaves the date unchanged (the `switch` has no default case). -/
def computeNextOccurrence (d : JDate) (interval : Option SubInterval)
    (customMonths : Option Int) : JDate :=
  match interval with
  | some .twoWeeks => jsSetDate d (d.day + 14)
  | some .month => jsAddMonths d 1
  | some .year => jsAddYears d 1
  | some .custom =>
    match customMonths with
    | some k => if k == 0 then d else jsAddMonths d k
    | none => d
  | none => d

/-- A row of the `categories` table (schema lines 104-113). -/
structure CatRow where
  id : String
  name : String
  type : TxType
  is_custom : Bool
  created_at : JDate
  synced : Bool
  deriving DecidableEq, Repr

/-- A row of the `transactions` table (schema lines 116-131 plus the
subscription migration columns of lines 161-200). -/
structure TxRow where
  id : String
  category_id : String
  amount : Int
  type : TxType
  item_name : Option String
  description : Option String
  payment_method : PayMethod
  transaction_date : JDate
  created_at : JDate
  updated_at : JDate
  synced : Bool
  is_subscription : Bool
  subscription_interval : Option SubInterval
  subscription_custom_months : Option Int
  subscription_parent_id : Option String
  next_occurrence : Option JDate
  deriving DecidableEq, Repr

/-- A row of the `goals` table (schema lines 134-145). -/
structure GoalRow where
  id : String
  title : String
  target_amount : Int
  current_amount : Int
  deadline : Option JDate
  deriving DecidableEq, Repr

/-- The local SQLite store: tables as lists in insertion order. -/
structure DB where
  transactions : List TxRow
  categories : List CatRow
  goals : List GoalRow
  deriving DecidableEq, Repr

/-- Domain errors thrown by the storage layer:
`protectedCategory` is the thrown `Error('Cannot delete default
categories')` and `invalidSubscription` the thrown
`Error('Invalid subscription')`. -/
inductive StoreError where
  | protectedCategory
  | invalidSubscription
  deriving DecidableEq, Repr

/-- Form data for a new (possibly subscription) transaction
(`TransactionFormData`). The `amount` string is modelled already parsed. -/
structure TransactionFormData where
  category_id : String
  amount : Int
  type : TxType
  item_name : Option String
  description : Option String
  payment_method : PayMethod
  transaction_date : JDate
  is_subscription : Bool
  subscription_interval : Option SubInterval
  subscription_custom_months : Option Int
  deriving DecidableEq, Repr

/-- JavaScript `s || null` on a nullable string: the empty string is
falsy and is stored as NULL. -/
def orNullStr : Option String → Option String
  | some "" => none
  | v => v

/-- JavaScript `n || null` on a nullable number: zero is falsy and is
stored as NULL. -/
def orNullInt : Option Int → Option Int
  | some 0 => none
  | v => v

/-- `SELECT ... FROM transactions WHERE id = ?` via `getFirstAsync`:
first row with the given id. -/
def findTx (db : DB) (id : String) : Option TxRow :=
  db.transactions.find? (fun t => t.id == id)

/-- `SELECT ... FROM categories WHERE id = ?` via `getFirstAsync`. -/
def findCat (db : DB) (id : String) : Option CatRow :=
  db.categories.find? (fun c => c.id == id)

/-- Default spending category names (src/unnamed/part_009 lines 4-13). -/
def DEFAULT_SPENDING_CATEGORIES : List String :=
  ["Food & Dining", "Transportation", "Shopping", "Bills & Utilities",
   "Entertainment", "Healthcare", "Education", "Other"]

/-- Default earning category names (src/unnamed/part_009 lines 15-22). -/
def DEFAULT_EARNING_CATEGORIES : List String :=
  ["Salary", "Freelance", "Investment", "Gift", "Refund", "Other"]

/-- The category rows inserted by `initDefaultCategories` (storage lines
224-254): one non-custom row per default name, spending first, each with
a freshly generated id (`gen` supplies the UUIDs in insertion order). -/
def mkDefaultCats (gen : Nat → String) (now : JDate) : List CatRow :=
  (DEFAULT_SPENDING_CATEGORIES.enum.map (fun p =>
    { id := gen p.1, name := p.2, type := .spending, is_custom := false,
      created_at := now, synced := false })) ++
  (DEFAULT_EARNING_CATEGORIES.enum.map (fun p =>
    { id := gen (8 + p.1), name := p.2, type := .earning, is_custom := false,
      created_at := now, synced := false }))

/-- `initDefaultCategories` (storage lines 224-254): unconditionally
INSERTs the 14 default category rows. -/
def initDefaultCategories (db : DB) (gen : Nat → String) (now : JDate) : DB :=
  { db with categories := db.categories ++ mkDefaultCats gen now }

/-- `clearAllData` (storage lines 897-908): deletes all transactions and
goals, deletes categories `WHERE is_custom = 1`, then unconditionally
re-runs `initDefaultCategories`. -/
def clearAllData (db : DB) (gen : Nat → String) (now : JDate) : DB :=
  let db1 : DB := { db with
    transactions := [],
    goals := [],
    categories := db.categories.filter (fun c => !c.is_custom) }
  initDefaultCategories db1 gen now

/-- The per-row effect of
`UPDATE categories SET name = ?, synced = 0 WHERE id = ?`. -/
def renameCategory (id name : String) (c : CatRow) : CatRow :=
  if c.id == id then { c with name := name, synced := false } else c

/-- `updateCategoryInDB` (storage lines 332-349): runs the UPDATE with no
check of `is_custom`, then re-reads the row by id; `none` models the
null dereference when the id matches no row. -/
def updateCategoryInDB (db : DB) (id name : String) : Option (DB × CatRow) :=
  let db' : DB := { db with categories := db.categories.map (renameCategory id name) }
  (findCat db' id).map (fun c => (db', c))

/-- `deleteCategoryFromDB` (storage lines 351-364): throws if the row
exists and is non-custom, otherwise deletes by id (a missing id deletes
nothing and does not fail). -/
def deleteCategoryFromDB (db : DB) (id : String) : Except StoreError DB :=
  match findCat db id with
  | some c =>
    if !c.is_custom then .error .protectedCategory
    else .ok { db with categories := db.categories.filter (fun c => !(c.id == id)) }
  | none => .ok { db with categories := db.categories.filter (fun c => !(c.id == id)) }

/-- `addSubscriptionTransaction` (storage lines 1001-1099): computes
`next_occurrence` from the interval switch when the subscription flag
and an interval are present, then INSERTs the row (never a parent
reference; falsy item name / description / custom months are stored as
NULL). `id` is the generated UUID and `now` the insertion timestamp. -/
def addSubscriptionTransaction (db : DB) (form : TransactionFormData)
    (id : String) (now : JDate) : DB × TxRow :=
  let nextOccurrence : Option JDate :=
    if form.is_subscription && form.subscription_interval != none then
      some (computeNextOccurrence form.transaction_date
        form.subscription_interval form.subscription_custom_months)
    else none
  let row : TxRow := {
    id := id, category_id := form.category_id, amount := form.amount,
    type := form.type, item_name := orNullStr form.item_name,
    description := orNullStr form.description,
    payment_method := form.payment_method,
    transaction_date := form.transaction_date,
    created_at := now, updated_at := now, synced := false,
    is_subscription := form.is_subscription,
    subscription_interval := form.subscription_interval,
    subscription_custom_months := orNullInt form.subscription_custom_months,
    subscription_parent_id := none,
    next_occurrence := nextOccurrence }
  ({ db with transactions := db.transactions ++ [row] }, row)

/-- Due-template predicate of the `getDueSubscriptions` WHERE clause
(storage lines 1165-1168). -/
def isDueTemplate (now : JDate) (t : TxRow) : Bool :=
  t.is_subscription && t.subscription_parent_id == none &&
    match t.next_occurrence with
    | some d => dateLE d now
    | none => false

/-- Row order realized by `ORDER BY t.next_occurrence ASC`. -/
def dueOrder (a b : TxRow) : Prop :=
  optDateLE a.next_occurrence b.next_occurrence = true

instance : DecidableRel dueOrder := fun _a _b =>
  inferInstanceAs (Decidable (_ = true))

/-- `getDueSubscriptions` (storage lines 1148-1199): templates
(`is_subscription = 1`, `subscription_parent_id IS NULL`) with a non-null
`next_occurrence <= now`, `ORDER BY next_occurrence ASC`. -/
def getDueSubscriptions (db : DB) (now : JDate) : List TxRow :=
  List.insertionSort dueOrder (db.transactions.filter (isDueTemplate now))

/-- The per-row effect of `UPDATE transactions SET next_occurrence = ?,
updated_at = ? WHERE id = ?` (storage lines 1261-1264). -/
def advanceTemplate (tid : String) (nd ts : JDate) (t : TxRow) : TxRow :=
  if t.id == tid then { t with next_occurrence := some nd, updated_at := ts } else t

/-- The child row INSERTed by `createSubscriptionOccurrence` (storage
lines 1219-1239): it copies category, amount, type, item name,
description and payment method from the parent, is dated at the given
occurrence date, and is stored with `is_subscription = 0` and
`subscription_parent_id` set to the parent's id (the interval columns
are not in the INSERT column list, so they default to NULL). -/
def occChild (subscriptionId newId : String) (occurrenceDate now : JDate)
    (parent : TxRow) : TxRow :=
  { id := newId, category_id := parent.category_id,
    amount := parent.amount, type := parent.type,
    item_name := parent.item_name, description := parent.description,
    payment_method := parent.payment_method,
    transaction_date := occurrenceDate,
    created_at := now, updated_at := now, synced := false,
    is_subscription := false,
    subscription_interval := none,
    subscription_custom_months := none,
    subscription_parent_id := some subscriptionId,
    next_occurrence := none }

/-- The write phase of `createSubscriptionOccurrence` once the parent has
been validated: INSERT the child, then UPDATE the parent's
`next_occurrence` to the occurrence date advanced by the interval switch. -/
def occInsert (db : DB) (subscriptionId newId : String) (now : JDate)
    (parent : TxRow) : DB × TxRow :=
  let occurrenceDate := parent.next_occurrence.getD now
  let child := occChild subscriptionId newId occurrenceDate now parent
  let nextDate := computeNextOccurrence occurrenceDate
    parent.subscription_interval parent.subscription_custom_months
  ({ db with transactions :=
      (db.transactions ++ [child]).map (advanceTemplate subscriptionId nextDate now) },
   child)

/-- The store component of `occInsert`: the state after the child INSERT
and the parent UPDATE. -/
def occState (db : DB) (subscriptionId newId : String) (now : JDate)
    (parent : TxRow) : DB :=
  (occInsert db subscriptionId newId now parent).1

/-- `createSubscriptionOccurrence` (storage lines 1201-1306): looks up
the parent by id and throws `Invalid subscription` when the row is
missing or not flagged as a subscription (there is no check of
`subscription_parent_id`); otherwise performs `occInsert`. `newId` is
the generated UUID and `now` the current timestamp. The source re-reads
and returns the inserted row, which with a fresh `newId` is the child
built by `occChild`. -/
def createSubscriptionOccurrence (db : DB) (subscriptionId newId : String)
    (now : JDate) : Except StoreError (DB × TxRow) :=
  match findTx db subscriptionId with
  | none => .error .invalidSubscription
  | some parent =>
    if !parent.is_subscription then .error .invalidSubscription
    else .ok (occInsert db subscriptionId newId now parent)

/-- The per-template loop body of `processSubscriptions`
(subscriptionManager lines 22-31): each materialization failure is
caught and skipped, successes are counted; `gen i` supplies the UUID for
the i-th materialization. -/
def processList (now : JDate) (gen : Nat → String) :
    Nat → DB → List TxRow → DB × Nat
  | _, db, [] => (db, 0)
  | i, db, sub :: rest =>
    match createSubscriptionOccurrence db sub.id (gen i) now with
    | .ok (db', _) =>
      let r := processList now gen (i + 1) db' rest
      (r.1, r.2 + 1)
    | .error _ => processList now gen (i + 1) db rest

/-- `processSubscriptions` (subscriptionManager lines 7-39): iterates
`getDueSubscriptions` in order, isolating per-template failures, and
returns the updated store with the success count. -/
def processSubscriptions (db : DB) (now : JDate) (gen : Nat → String) : DB × Nat :=
  processList now gen 0 db (getDueSubscriptions db now)

/-- Balance aggregate (`BalanceData`). -/
structure BalanceData where
  totalEarnings : Int
  totalSpending : Int
  netBalance : Int
  deriving DecidableEq, Repr

/-- Per-category spending bucket (`CategorySpending`). -/
structure CategorySpending where
  category_id : String
  category_name : String
  total : Int
  deriving DecidableEq, Repr

/-- In-memory `getTransactionsByDateRange` (DataContext lines 142-147):
keeps transactions with `startDate <= transaction_date <= endDate`. -/
def getTransactionsByDateRange (ts : List TxRow) (startDate endDate : JDate) :
    List TxRow :=
  ts.filter (fun t => dateLE startDate t.transaction_date &&
    dateLE t.transaction_date endDate)

/-- `getBalanceData` (DataContext lines 302-319) over the resolved date
window: earning and spending sums via `reduce`, and their difference. -/
def getBalanceData (ts : List TxRow) (startDate endDate : JDate) : BalanceData :=
  let filtered := getTransactionsByDateRange ts startDate endDate
  let totalEarnings :=
    (filtered.filter (fun t => t.type == .earning)).foldl (fun s t => s + t.amount) 0
  let totalSpending :=
    (filtered.filter (fun t => t.type == .spending)).foldl (fun s t => s + t.amount) 0
  { totalEarnings := totalEarnings, totalSpending := totalSpending,
    netBalance := totalEarnings - totalSpending }

/-- The in-place update `categoryTotals[categoryId].total += amount`
restricted to the bucket keyed by `cid`. -/
def bumpBucket (cid : String) (amt : Int) (b : CategorySpending) : CategorySpending :=
  if b.category_id == cid then { b with total := b.total + amt } else b

/-- One step of the `categoryTotals` accumulation in
`getCategorySpending`: add `amt` to the bucket keyed by `cid`, creating
it (keyed in first-occurrence order, as a JavaScript object with
non-numeric string keys) if absent. -/
def addToBucket (acc : List CategorySpending) (cid name : String) (amt : Int) :
    List CategorySpending :=
  if acc.any (fun b => b.category_id == cid) then acc.map (bumpBucket cid amt)
  else acc ++ [{ category_id := cid, category_name := name, total := amt }]

/-- One transaction's effect on `categoryTotals`: a transaction whose
`category_id` matches no known category is skipped. -/
def bucketStep (cats : List CatRow) (acc : List CategorySpending) (t : TxRow) :
    List CategorySpending :=
  match cats.find? (fun c => c.id == t.category_id) with
  | some c => addToBucket acc t.category_id c.name t.amount
  | none => acc

/-- The bucket list built by the `forEach` of `getCategorySpending`
(DataContext lines 328-341). -/
def buildBuckets (cats : List CatRow) (ts : List TxRow) : List CategorySpending :=
  ts.foldl (bucketStep cats) []

/-- Bucket order realized by the comparator `(a, b) => b.total - a.total`:
total descending. -/
def spendDescOrder (a b : CategorySpending) : Prop := b.total ≤ a.total

instance : DecidableRel spendDescOrder := fun _a _b =>
  inferInstanceAs (Decidable (_ ≤ _))

/-- `getCategorySpending` (DataContext lines 321-350): buckets the
spending-type transactions of the window by `category_id` and sorts the
buckets by total descending. -/
def getCategorySpending (ts : List TxRow) (cats : List CatRow)
    (startDate endDate : JDate) : List CategorySpending :=
  let filtered := (getTransactionsByDateRange ts startDate endDate).filter
    (fun t => t.type == .spending)
  List.insertionSort spendDescOrder (buildBuckets cats filtered)

/-- Template predicate: subscription flag set and no parent reference
(the WHERE clause shared by `getActiveSubscriptions` and
`getDueSubscriptions`). -/
def isTemplate (t : TxRow) : Bool :=
  t.is_subscription && t.subscription_parent_id == none

/-- Lookup of a bucket by category key. -/
def lookupBucket (l : List CategorySpending) (cid : String) : Option CategorySpending :=
  l.find? (fun b => b.category_id == cid)

/-- Total amount of the transactions of `ts` carrying category `cid`. -/
def totalFor (ts : List TxRow) (cid : String) : Int :=
  ((ts.filter (fun t => t.category_id == cid)).map (fun t => t.amount)).sum

/-! Concrete fixtures used to instantiate the theorems. -/

/-- A subscription template: 999 cents monthly, next occurrence 2024-02-01. -/
def exTmpl : TxRow :=
  { id := "t1", category_id := "c1", amount := 999,
    type := .spending, item_name := some "Streaming", description := none,
    payment_method := .card, transaction_date := ⟨2024, 0, 1⟩,
    created_at := ⟨2024, 0, 1⟩, updated_at := ⟨2024, 0, 1⟩, synced := false,
    is_subscription := true, subscription_interval := some .month,
    subscription_custom_months := none, subscription_parent_id := none,
    next_occurrence := some ⟨2024, 1, 1⟩ }

/-- A store holding just the monthly template. -/
def exDb : DB := { transactions := [exTmpl], categories := [], goals := [] }

/-- A row that is flagged as a subscription but also carries a non-null
parent reference, i.e. a child occurrence by the claim's definition. -/
def exChildFlagged : TxRow :=
  { exTmpl with id := "x1", subscription_parent_id := some "t1" }

/-- A store holding only the flagged child row. -/
def exDb8 : DB := { transactions := [exChildFlagged], categories := [], goals := [] }

/-- Form data for a custom-interval subscription with no month count. -/
def exForm3 : TransactionFormData :=
  { category_id := "c1", amount := 5, type := .spending, item_name := none,
    description := none, payment_method := .card,
    transaction_date := ⟨2024, 0, 15⟩, is_subscription := true,
    subscription_interval := some .custom, subscription_custom_months := none }

/-- A custom-interval template with no month count, due 2024-05-01. -/
def exTmplCustom : TxRow :=
  { exTmpl with
    id := "t9",
    subscription_interval := some .custom,
    subscription_custom_months := none,
    next_occurrence := some ⟨2024, 4, 1⟩ }

/-- A store holding only the custom-interval template. -/
def exDb3 : DB := { transactions := [exTmplCustom], categories := [], goals := [] }

/-- A default (non-custom) category row. -/
def exDefaultCat : CatRow :=
  { id := "c1", name := "Other", type := .spending, is_custom := false,
    created_at := ⟨2024, 0, 1⟩, synced := true }

/-- A custom category row. -/
def exCustomCat : CatRow :=
  { id := "c2", name := "Hobbies", type := .spending, is_custom := true,
    created_at := ⟨2024, 0, 1⟩, synced := true }

/-- A goal row. -/
def exGoal : GoalRow :=
  { id := "g1", title := "Trip", target_amount := 500, current_amount := 20,
    deadline := none }

/-- A store with one default category and one custom category. -/
def exCatDb : DB :=
  { transactions := [], categories := [exDefaultCat, exCustomCat], goals := [] }

/-- UUID supply used when seeding the fixture store's default categories. -/
def genSeed : Nat → String := fun n =>
  match n with
  | 0 => "s00" | 1 => "s01" | 2 => "s02" | 3 => "s03" | 4 => "s04"
  | 5 => "s05" | 6 => "s06" | 7 => "s07" | 8 => "s08" | 9 => "s09"
  | 10 => "s10" | 11 => "s11" | 12 => "s12" | _ => "s13"

/-- UUID supply used for the re-seeding run of `clearAllData`. -/
def genReseed : Nat → String := fun n =>
  match n with
  | 0 => "r00" | 1 => "r01" | 2 => "r02" | 3 => "r03" | 4 => "r04"
  | 5 => "r05" | 6 => "r06" | 7 => "r07" | 8 => "r08" | 9 => "r09"
  | 10 => "r10" | 11 => "r11" | 12 => "r12" | _ => "r13"

/-- A normally initialized store: the 14 seeded default categories plus
one custom category, one transaction and one goal. -/
def exSeededDb : DB :=
  { transactions := [exTmpl],
    categories := mkDefaultCats genSeed ⟨2024, 0, 1⟩ ++ [exCustomCat],
    goals := [exGoal] }

/-- An earning of 100 on 2024-04-10. -/
def exEarnTx : TxRow :=
  { id := "e1", category_id := "cSal", amount := 100, type := .earning,
    item_name := none, description := none, payment_method := .cash,
    transaction_date := ⟨2024, 3, 10⟩, created_at := ⟨2024, 3, 10⟩,
    updated_at := ⟨2024, 3, 10⟩, synced := false, is_subscription := false,
    subscription_interval := none, subscription_custom_months := none,
    subscription_parent_id := none, next_occurrence := none }

/-- A spending of 40 on 2024-04-12. -/
def exSpendTx : TxRow :=
  { exEarnTx with
    id := "e2",
    category_id := "cFood",
    amount := 40,
    type := .spending,
    transaction_date := ⟨2024, 3, 12⟩ }

/-- Categories matching the two aggregate-fixture transactions. -/
def exAggCats : List CatRow :=
  [{ id := "cSal", name := "Salary", type := .earning, is_custom := false,
     created_at := ⟨2024, 0, 1⟩, synced := false },
   { id := "cFood", name := "Food & Dining", type := .spending, is_custom := false,
     created_at := ⟨2024, 0, 1⟩, synced := false }]

/-! Helper lemmas. -/

theorem dateLE_total (a b : JDate) : dateLE a b = true ∨ dateLE b a = true := by
  unfold dateLE
  simp only [decide_eq_true_eq]
  omega

theorem dateLE_trans {a b c : JDate} (h1 : dateLE a b = true)
    (h2 : dateLE b c = true) : dateLE a c = true := by
  unfold dateLE at *
  simp only [decide_eq_true_eq] at *
  omega

theorem optDateLE_total (a b : Option JDate) :
    optDateLE a b = true ∨ optDateLE b a = true := by
  cases a with
  | none => left; rfl
  | some x =>
    cases b with
    | none => right; rfl
    | some y => exact dateLE_total x y

theorem optDateLE_trans {a b c : Option JDate} (h1 : optDateLE a b = true)
    (h2 : optDateLE b c = true) : optDateLE a c = true := by
  cases a with
  | none => rfl
  | some x =>
    cases b with
    | none => exact absurd h1 (by simp [optDateLE])
    | some y =>
      cases c with
      | none => exact absurd h2 (by simp [optDateLE])
      | some z => exact dateLE_trans (a := x) (b := y) h1 h2

instance : IsTotal TxRow dueOrder :=
  ⟨fun a b => optDateLE_total a.next_occurrence b.next_occurrence⟩

instance : IsTrans TxRow dueOrder :=
  ⟨fun _ _ _ h1 h2 => optDateLE_trans h1 h2⟩

instance : IsTotal CategorySpending spendDescOrder :=
  ⟨fun a b => le_total b.total a.total⟩

instance : IsTrans CategorySpending spendDescOrder :=
  ⟨fun _ _ _ h1 h2 => le_trans h2 h1⟩

theorem find?_map_of_pred {α : Type} (f : α → α) (p : α → Bool)
    (hp : ∀ a, p (f a) = p a) :
    ∀ l : List α, (l.map f).find? p = (l.find? p).map f := by
  intro l
  induction l with
  | nil => rfl
  | cons a tl ih =>
    by_cases hpa : p a = true
    · simp [List.find?_cons, hp, hpa]
    · simp only [Bool.not_eq_true] at hpa
      simp [List.find?_cons, hp, hpa, ih]

theorem advanceTemplate_id (tid : String) (nd ts : JDate) (t : TxRow) :
    (advanceTemplate tid nd ts t).id = t.id := by
  unfold advanceTemplate
  split <;> rfl

theorem advanceTemplate_is_subscription (tid : String) (nd ts : JDate) (t : TxRow) :
    (advanceTemplate tid nd ts t).is_subscription = t.is_subscription := by
  unfold advanceTemplate
  split <;> rfl

theorem advanceTemplate_parent (tid : String) (nd ts : JDate) (t : TxRow) :
    (advanceTemplate tid nd ts t).subscription_parent_id = t.subscription_parent_id := by
  unfold advanceTemplate
  split <;> rfl

theorem renameCategory_id (id name : String) (c : CatRow) :
    (renameCategory id name c).id = c.id := by
  unfold renameCategory
  split <;> rfl

theorem createOcc_ok_eq {db : DB} {tid : String} {parent : TxRow}
    (nid : String) (now : JDate)
    (hfind : findTx db tid = some parent)
    (hsub : parent.is_subscription = true) :
    createSubscriptionOccurrence db tid nid now =
      .ok (occInsert db tid nid now parent) := by
  unfold createSubscriptionOccurrence
  rw [hfind]
  simp [hsub]

theorem createOcc_error_of_not_sub {db : DB} {tid : String} {parent : TxRow}
    (nid : String) (now : JDate)
    (hfind : findTx db tid = some parent)
    (hsub : parent.is_subscription = false) :
    createSubscriptionOccurrence db tid nid now = .error .invalidSubscription := by
  unfold createSubscriptionOccurrence
  rw [hfind]
  simp [hsub]

/-! Claim theorems. -/

/-- C7: the boundary boolean coercion `sqliteBoolean` returns true
exactly when its input is the literal boolean `true`, the number `1`, or
the string `"1"`; every other input — including `false`, `0`, `"0"`,
`null`, `undefined` and `"yes"` — maps to false. -/
theorem sqliteBoolean_true_iff (v : SQLValue) :
    sqliteBoolean v = true ↔
      (v = .b true ∨ v = .num 1 ∨ v = .str "1") := by
  cases v <;> simp [sqliteBoolean]

theorem isDueTemplate_iff (now : JDate) (t : TxRow) :
    isDueTemplate now t = true ↔
      (t.is_subscription = true ∧ t.subscription_parent_id = none ∧
        ∃ d, t.next_occurrence = some d ∧ dateLE d now = true) := by
  unfold isDueTemplate
  cases h : t.next_occurrence <;> simp [h, and_assoc]

/-- C2: for every database state and time `now`, `getDueSubscriptions`
returns exactly the stored transactions with `is_subscription` true, a
null `subscription_parent_id`, and a non-null `next_occurrence` that is
at most `now`, ordered by `next_occurrence` ascending; in particular it
never returns a child occurrence (a row with a non-null parent
reference), regardless of its dates. -/
theorem getDueSubscriptions_spec (db : DB) (now : JDate) :
    (∀ t : TxRow, t ∈ getDueSubscriptions db now ↔
        (t ∈ db.transactions ∧ t.is_subscription = true ∧
         t.subscription_parent_id = none ∧
         ∃ d, t.next_occurrence = some d ∧ dateLE d now = true)) ∧
    List.Sorted dueOrder (getDueSubscriptions db now) ∧
    (∀ t ∈ getDueSubscriptions db now, t.subscription_parent_id = none) := by
  have hmem : ∀ t : TxRow, t ∈ getDueSubscriptions db now ↔
      (t ∈ db.transactions ∧ t.is_subscription = true ∧
       t.subscription_parent_id = none ∧
       ∃ d, t.next_occurrence = some d ∧ dateLE d now = true) := by
    intro t
    rw [getDueSubscriptions, List.mem_insertionSort, List.mem_filter,
      isDueTemplate_iff]
  refine ⟨hmem, List.sorted_insertionSort dueOrder _, ?_⟩
  intro t ht
  exact ((hmem t).mp ht).2.2.1

/-- Witness for C2: the fixture template is due at 2024-03-02. -/
theorem getDueSubscriptions_spec_witness :
    exTmpl ∈ getDueSubscriptions exDb ⟨2024, 2, 2⟩ :=
  ((getDueSubscriptions_spec exDb ⟨2024, 2, 2⟩).1 exTmpl).mpr
    ⟨by decide, by decide, by decide, ⟨2024, 1, 1⟩, by decide, by decide⟩

/-- Witness for C7: the literal boolean true coerces to true. -/
theorem sqliteBoolean_true_iff_witness : sqliteBoolean (.b true) = true :=
  (sqliteBoolean_true_iff (.b true)).mpr (Or.inl rfl)

/-- C1: for every stored template (a transaction with the subscription
flag and no parent reference), `createSubscriptionOccurrence` succeeds
and inserts exactly one new transaction copying the template's
`category_id`, `amount`, `type`, `item_name`, `description` and
`payment_method`, dated at the template's current `next_occurrence`
(falling back to the current time when unset), flagged non-recurring
with `subscription_parent_id` equal to the template's id; the template's
`next_occurrence` is then updated to the occurrence date advanced by the
template's interval, where the interval switch adds 14 days for
`2weeks`, 1 calendar month for `month`, 1 calendar year for `year`, and
`customMonths` calendar months for `custom` (witnessed on 2024-01-15 by
the four closing conjuncts). -/
theorem createSubscriptionOccurrence_spec (db : DB) (tid nid : String)
    (now : JDate) (parent : TxRow)
    (hfind : findTx db tid = some parent)
    (hsub : parent.is_subscription = true)
    (_hparent : parent.subscription_parent_id = none)
    (hfresh : nid ≠ tid) :
    ∃ child db',
      createSubscriptionOccurrence db tid nid now = .ok (db', child) ∧
      child.id = nid ∧
      child.category_id = parent.category_id ∧
      child.amount = parent.amount ∧
      child.type = parent.type ∧
      child.item_name = parent.item_name ∧
      child.description = parent.description ∧
      child.payment_method = parent.payment_method ∧
      child.transaction_date = parent.next_occurrence.getD now ∧
      child.is_subscription = false ∧
      child.subscription_parent_id = some tid ∧
      db'.transactions =
        db.transactions.map (advanceTemplate tid
          (computeNextOccurrence (parent.next_occurrence.getD now)
            parent.subscription_interval parent.subscription_custom_months) now)
          ++ [child] ∧
      db'.transactions.length = db.transactions.length + 1 ∧
      findTx db' tid = some { parent with
        next_occurrence := some (computeNextOccurrence
          (parent.next_occurrence.getD now)
          parent.subscription_interval parent.subscription_custom_months),
        updated_at := now } ∧
      computeNextOccurrence ⟨2024, 0, 15⟩ (some .twoWeeks) none = ⟨2024, 0, 29⟩ ∧
      computeNextOccurrence ⟨2024, 0, 15⟩ (some .month) none = ⟨2024, 1, 15⟩ ∧
      computeNextOccurrence ⟨2024, 0, 15⟩ (some .year) none = ⟨2025, 0, 15⟩ ∧
      computeNextOccurrence ⟨2024, 0, 15⟩ (some .custom) (some 3) = ⟨2024, 3, 15⟩ := by
  have hne : (nid == tid) = false := beq_eq_false_iff_ne.mpr hfresh
  have hfind' : db.transactions.find? (fun t => t.id == tid) = some parent := hfind
  have hpid : (parent.id == tid) = true := by
    simpa using List.find?_some hfind'
  have hadv : advanceTemplate tid
      (computeNextOccurrence (parent.next_occurrence.getD now)
        parent.subscription_interval parent.subscription_custom_months) now
      (occChild tid nid (parent.next_occurrence.getD now) now parent) =
      occChild tid nid (parent.next_occurrence.getD now) now parent := by
    unfold advanceTemplate occChild
    simp [hne]
  have hins : createSubscriptionOccurrence db tid nid now =
      .ok ({ db with transactions :=
          db.transactions.map (advanceTemplate tid
            (computeNextOccurrence (parent.next_occurrence.getD now)
              parent.subscription_interval parent.subscription_custom_months) now)
          ++ [occChild tid nid (parent.next_occurrence.getD now) now parent] },
        occChild tid nid (parent.next_occurrence.getD now) now parent) := by
    rw [createOcc_ok_eq nid now hfind hsub]
    unfold occInsert
    simp only [List.map_append, List.map_cons, List.map_nil, hadv]
  refine ⟨_, _, hins, rfl, rfl, rfl, rfl, rfl, rfl, rfl, rfl, rfl, rfl, rfl,
    ?_, ?_, by decide, by decide, by decide, by decide⟩
  · simp
  · show List.find? (fun t => t.id == tid)
        (db.transactions.map (advanceTemplate tid
          (computeNextOccurrence (parent.next_occurrence.getD now)
            parent.subscription_interval parent.subscription_custom_months) now)
          ++ [occChild tid nid (parent.next_occurrence.getD now) now parent]) =
      some { parent with
        next_occurrence := some (computeNextOccurrence
          (parent.next_occurrence.getD now)
          parent.subscription_interval parent.subscription_custom_months),
        updated_at := now }
    rw [List.find?_append,
      find?_map_of_pred _ _ (fun a => by simp [advanceTemplate_id]) db.transactions,
      hfind']
    unfold advanceTemplate
    simp [hpid]
    intro h
    exact absurd (by simpa using hpid) h

/-- Witness for C1: materializing the fixture template. -/
theorem createSubscriptionOccurrence_spec_witness :
    ∃ child db',
      createSubscriptionOccurrence exDb "t1" "n1" ⟨2024, 2, 2⟩ = .ok (db', child) ∧
      child.subscription_parent_id = some "t1" := by
  obtain ⟨c, d', hok, _, _, _, _, _, _, _, _, _, hpar, -⟩ :=
    createSubscriptionOccurrence_spec exDb "t1" "n1" ⟨2024, 2, 2⟩ exTmpl
      (by decide) (by decide) (by decide) (by decide)
  exact ⟨c, d', hok, hpar⟩

/-- C8 counterexample: a stored row that is flagged as a subscription but
carries a non-null `subscription_parent_id` — i.e. a child occurrence in
the claim's wording — is accepted by `createSubscriptionOccurrence`
rather than rejected with an error. -/
theorem createOcc_accepts_flagged_child :
    findTx exDb8 "x1" = some exChildFlagged ∧
    exChildFlagged.subscription_parent_id = some "t1" ∧
    (createSubscriptionOccurrence exDb8 "x1" "n8" ⟨2024, 2, 2⟩).isOk = true := by
  decide

/-- C8 (amended): `createSubscriptionOccurrence` fails with the
`Invalid subscription` error exactly when the target row is missing or
is not flagged as a subscription; the `subscription_parent_id` of the
target is not checked, so a row flagged as a subscription is accepted
even when it carries a non-null parent reference. On error nothing is
inserted (the error is raised before any write). -/
theorem createOcc_error_iff (db : DB) (tid nid : String) (now : JDate) :
    createSubscriptionOccurrence db tid nid now = .error .invalidSubscription ↔
      (findTx db tid = none ∨
        ∃ p, findTx db tid = some p ∧ p.is_subscription = false) := by
  unfold createSubscriptionOccurrence
  cases h : findTx db tid with
  | none => simp
  | some p =>
    cases hs : p.is_subscription <;> simp [hs]

/-- Witness for C8 (amended): an empty store yields the error. -/
theorem createOcc_error_iff_witness :
    createSubscriptionOccurrence { transactions := [], categories := [], goals := [] }
      "zz" "n0" ⟨2024, 0, 1⟩ = .error .invalidSubscription :=
  (createOcc_error_iff _ "zz" "n0" ⟨2024, 0, 1⟩).mpr (Or.inl rfl)

/-- C3 counterexample: a custom-interval subscription with no month
count is accepted without any error. `addSubscriptionTransaction`
inserts it with `next_occurrence` equal to the (unadvanced) transaction
date, and `createSubscriptionOccurrence` on such a template succeeds and
leaves the template's `next_occurrence` unadvanced — no `InvalidInterval`
failure exists anywhere. -/
theorem customInterval_never_fails :
    (addSubscriptionTransaction exDb3 exForm3 "id1" ⟨2024, 0, 15⟩).2.next_occurrence
        = some ⟨2024, 0, 15⟩ ∧
    (addSubscriptionTransaction exDb3 exForm3 "id1" ⟨2024, 0, 15⟩).1.transactions.length
        = exDb3.transactions.length + 1 ∧
    exTmplCustom.subscription_interval = some .custom ∧
    exTmplCustom.subscription_custom_months = none ∧
    (createSubscriptionOccurrence exDb3 "t9" "n9" ⟨2024, 5, 1⟩).isOk = true ∧
    ((createSubscriptionOccurrence exDb3 "t9" "n9" ⟨2024, 5, 1⟩).toOption.bind
        (fun p => findTx p.1 "t9")).map (fun t => t.next_occurrence)
      = some (some ⟨2024, 4, 1⟩) := by
  decide

/-- C3 (amended): with interval `custom`, a missing or zero custom month
count makes the next-occurrence computation silently return its input
unchanged — no error is raised — while a non-zero month count (negative
included) is applied as calendar-month arithmetic; consequently a
subscription created by `addSubscriptionTransaction` with interval
`custom` and no month count gets `next_occurrence` equal to its own
transaction date. -/
theorem customInterval_truthiness_spec (d : JDate) (k : Int) (db : DB)
    (form : TransactionFormData) (id : String) (now : JDate)
    (hsub : form.is_subscription = true)
    (hint : form.subscription_interval = some .custom)
    (hmonths : form.subscription_custom_months = none) :
    computeNextOccurrence d (some .custom) none = d ∧
    computeNextOccurrence d (some .custom) (some 0) = d ∧
    (k ≠ 0 → computeNextOccurrence d (some .custom) (some k) = jsAddMonths d k) ∧
    (addSubscriptionTransaction db form id now).2.next_occurrence
      = some form.transaction_date := by
  refine ⟨rfl, rfl, ?_, ?_⟩
  · intro hk
    unfold computeNextOccurrence
    simp [hk]
  · unfold addSubscriptionTransaction
    simp [hsub, hint, hmonths, computeNextOccurrence]

/-- Witness for C3 (amended). -/
theorem customInterval_truthiness_spec_witness :
    (addSubscriptionTransaction exDb3 exForm3 "id2" ⟨2024, 0, 15⟩).2.next_occurrence
      = some exForm3.transaction_date :=
  (customInterval_truthiness_spec ⟨2024, 0, 15⟩ 1 exDb3 exForm3 "id2" ⟨2024, 0, 15⟩
    (by decide) (by decide) (by decide)).2.2.2

/-- C5 counterexample: `updateCategoryInDB` performs no protection
check: it renames a default (non-custom) category without any error. -/
theorem updateCategory_renames_default :
    (findCat exCatDb "c1").map (fun c => c.is_custom) = some false ∧
    (updateCategoryInDB exCatDb "c1" "Renamed").isSome = true ∧
    (updateCategoryInDB exCatDb "c1" "Renamed").map (fun p => (p.2.name, p.2.is_custom))
      = some ("Renamed", false) := by
  decide

/-- C5 (amended): deleting a non-custom category fails with the
protected-category error and leaves the store unchanged (the error is
raised before the DELETE), but renaming performs no such check:
`updateCategoryInDB` renames the row regardless of its `is_custom` flag
and returns the renamed row. -/
theorem categoryProtection_spec :
    (∀ (db : DB) (id : String) (c : CatRow),
      findCat db id = some c → c.is_custom = false →
      deleteCategoryFromDB db id = .error .protectedCategory) ∧
    (∀ (db : DB) (id name : String) (c : CatRow),
      findCat db id = some c →
      updateCategoryInDB db id name =
        some ({ db with categories := db.categories.map (renameCategory id name) },
              { c with name := name, synced := false })) := by
  constructor
  · intro db id c hfind hcustom
    unfold deleteCategoryFromDB
    rw [hfind]
    simp [hcustom]
  · intro db id name c hfind
    have hfind' : db.categories.find? (fun cat => cat.id == id) = some c := hfind
    have hcid : (c.id == id) = true := by
      simpa using List.find?_some hfind'
    unfold updateCategoryInDB
    dsimp only
    rw [show findCat { db with categories := db.categories.map (renameCategory id name) } id
          = (db.categories.find? (fun cat => cat.id == id)).map (renameCategory id name) from
        find?_map_of_pred _ _ (fun a => by simp [renameCategory_id]) db.categories]
    rw [hfind']
    unfold renameCategory
    simp [hcid]
    intro h
    exact absurd (by simpa using hcid) h

/-- Witness for C5 (amended): deleting the fixture default category
errors, renaming the same category succeeds. -/
theorem categoryProtection_spec_witness :
    deleteCategoryFromDB exCatDb "c1" = .error .protectedCategory ∧
    (updateCategoryInDB exCatDb "c1" "Misc").isSome = true := by
  constructor
  · exact (categoryProtection_spec).1 exCatDb "c1" exDefaultCat (by decide) (by decide)
  · rw [(categoryProtection_spec).2 exCatDb "c1" "Misc" exDefaultCat (by decide)]
    rfl

/-- C6 (code bug): evaluated on a normally initialized store (the 14
seeded defaults plus one custom category, one transaction and one goal),
`clearAllData` does delete every transaction, every goal and every
custom category — but because it re-seeds the default categories
unconditionally after deleting only the custom ones, every default
category ends up duplicated: 28 category rows remain, with two spending
`Other` rows, instead of the claimed exactly-once default set. -/
theorem clearAllData_duplicates_defaults :
    (clearAllData exSeededDb genReseed ⟨2024, 5, 1⟩).transactions = [] ∧
    (clearAllData exSeededDb genReseed ⟨2024, 5, 1⟩).goals = [] ∧
    ((clearAllData exSeededDb genReseed ⟨2024, 5, 1⟩).categories.filter
      (fun c => c.is_custom)).length = 0 ∧
    exSeededDb.categories.length = 15 ∧
    (clearAllData exSeededDb genReseed ⟨2024, 5, 1⟩).categories.length = 28 ∧
    ((clearAllData exSeededDb genReseed ⟨2024, 5, 1⟩).categories.filter
      (fun c => c.name == "Other" && c.type == TxType.spending)).length = 2 := by
  decide

theorem bumpBucket_cid (cid : String) (amt : Int) (b : CategorySpending) :
    (bumpBucket cid amt b).category_id = b.category_id := by
  unfold bumpBucket
  split <;> rfl

theorem foldl_add_amount (l : List TxRow) (a : Int) :
    l.foldl (fun s t => s + t.amount) a = a + (l.map (fun t => t.amount)).sum := by
  induction l generalizing a with
  | nil => simp
  | cons x xs ih => simp [ih, add_assoc]

theorem lookupBucket_addToBucket_self (acc : List CategorySpending)
    (cid name : String) (amt : Int) :
    lookupBucket (addToBucket acc cid name amt) cid =
      match lookupBucket acc cid with
      | some b => some { b with total := b.total + amt }
      | none => some { category_id := cid, category_name := name, total := amt } := by
  cases h : lookupBucket acc cid with
  | some b =>
    have h' : acc.find? (fun x => x.category_id == cid) = some b := h
    have hany : acc.any (fun x => x.category_id == cid) = true :=
      List.any_eq_true.mpr ⟨b, List.mem_of_find?_eq_some h',
        by simpa using List.find?_some h'⟩
    have hbcid : (b.category_id == cid) = true := by
      simpa using List.find?_some h'
    unfold addToBucket
    rw [if_pos hany]
    unfold lookupBucket
    rw [find?_map_of_pred _ _ (fun a => by simp [bumpBucket_cid]) acc, h']
    unfold bumpBucket
    simp [hbcid]
    intro hc
    exact absurd (by simpa using hbcid) hc
  | none =>
    have h' : acc.find? (fun x => x.category_id == cid) = none := h
    have hany : acc.any (fun x => x.category_id == cid) = false := by
      cases hx : acc.any (fun x => x.category_id == cid) with
      | false => rfl
      | true =>
        obtain ⟨x, hmem, hp⟩ := List.any_eq_true.mp hx
        exact absurd hp (List.find?_eq_none.mp h' x hmem)
    unfold addToBucket
    rw [if_neg (by simp [hany])]
    unfold lookupBucket
    rw [List.find?_append, h']
    simp

theorem lookupBucket_addToBucket_other (acc : List CategorySpending)
    (cid name : String) (amt : Int) (q : String) (hne : q ≠ cid) :
    lookupBucket (addToBucket acc cid name amt) q = lookupBucket acc q := by
  unfold addToBucket
  by_cases hany : acc.any (fun x => x.category_id == cid) = true
  · rw [if_pos hany]
    unfold lookupBucket
    rw [find?_map_of_pred _ _ (fun a => by simp [bumpBucket_cid]) acc]
    cases h : acc.find? (fun x => x.category_id == q) with
    | none => rfl
    | some b =>
      have hbq : (b.category_id == q) = true := by
        simpa using List.find?_some h
      have hbq' : b.category_id = q := by simpa using hbq
      have : bumpBucket cid amt b = b := by
        unfold bumpBucket
        rw [if_neg]
        simp [hbq', hne]
      simp [this]
  · rw [if_neg hany]
    unfold lookupBucket
    rw [List.find?_append]
    have hpf : (({ category_id := cid, category_name := name, total := amt } :
        CategorySpending).category_id == q) = false :=
      beq_eq_false_iff_ne.mpr (fun hcq => hne hcq.symm)
    have : List.find? (fun x => x.category_id == q)
        ([{ category_id := cid, category_name := name, total := amt }] :
          List CategorySpending) = none := by
      simp [List.find?_cons, hpf]
    rw [this]
    cases acc.find? (fun x => x.category_id == q) <;> rfl

theorem addToBucket_keys_nodup {acc : List CategorySpending}
    (h : (acc.map (fun b => b.category_id)).Nodup) (cid name : String) (amt : Int) :
    ((addToBucket acc cid name amt).map (fun b => b.category_id)).Nodup := by
  unfold addToBucket
  by_cases hany : acc.any (fun x => x.category_id == cid) = true
  · rw [if_pos hany]
    have : (acc.map (bumpBucket cid amt)).map (fun b => b.category_id) =
        acc.map (fun b => b.category_id) := by
      rw [List.map_map]
      simp [Function.comp, bumpBucket_cid]
    rw [this]
    exact h
  · rw [if_neg hany]
    rw [List.map_append]
    refine List.Nodup.append h (List.nodup_singleton _) ?_
    intro a ha hb
    simp at hb
    subst hb
    obtain ⟨b, hbmem, hbeq⟩ := List.mem_map.mp ha
    exact hany (List.any_eq_true.mpr ⟨b, hbmem, by simp [hbeq]⟩)

theorem foldl_bucketStep_keys_nodup (cats : List CatRow) :
    ∀ (l : List TxRow) (acc : List CategorySpending),
      (acc.map (fun b => b.category_id)).Nodup →
      ((l.foldl (bucketStep cats) acc).map (fun b => b.category_id)).Nodup := by
  intro l
  induction l with
  | nil => exact fun acc h => h
  | cons t rest ih =>
    intro acc h
    rw [List.foldl_cons]
    apply ih
    unfold bucketStep
    cases cats.find? (fun c => c.id == t.category_id) with
    | none => exact h
    | some c => exact addToBucket_keys_nodup h _ _ _

theorem totalFor_cons_self {t : TxRow} {cid : String} (h : t.category_id = cid)
    (rest : List TxRow) : totalFor (t :: rest) cid = t.amount + totalFor rest cid := by
  unfold totalFor
  simp [h]

theorem totalFor_cons_other {t : TxRow} {cid : String} (h : t.category_id ≠ cid)
    (rest : List TxRow) : totalFor (t :: rest) cid = totalFor rest cid := by
  unfold totalFor
  simp [h]

theorem lookupBucket_foldl (cats : List CatRow) (cid : String) :
    ∀ (l : List TxRow) (acc : List CategorySpending),
      lookupBucket (l.foldl (bucketStep cats) acc) cid =
        match cats.find? (fun c => c.id == cid), lookupBucket acc cid with
        | none, v => v
        | some _, some b => some { b with total := b.total + totalFor l cid }
        | some c, none =>
          if l.any (fun t => t.category_id == cid) then
            some { category_id := cid, category_name := c.name, total := totalFor l cid }
          else none := by
  intro l
  induction l with
  | nil =>
    intro acc
    cases hc : cats.find? (fun c => c.id == cid) with
    | none => rfl
    | some c =>
      cases hb : lookupBucket acc cid with
      | some b =>
        simp [totalFor]
        exact hb
      | none =>
        simp [totalFor]
        exact hb
  | cons t rest ih =>
    intro acc
    rw [List.foldl_cons, ih (bucketStep cats acc t)]
    by_cases hct : t.category_id = cid
    · unfold bucketStep
      rw [hct]
      cases hc : cats.find? (fun c => c.id == cid) with
      | none => simp
      | some c =>
        rw [lookupBucket_addToBucket_self]
        cases hb : lookupBucket acc cid with
        | some b =>
          simp only []
          rw [totalFor_cons_self hct]
          simp [add_assoc]
        | none =>
          have hany : (t :: rest).any (fun x => x.category_id == cid) = true := by
            simp [List.any_cons, hct]
          simp only []
          rw [totalFor_cons_self hct, hany]
          by_cases hrest : rest.any (fun x => x.category_id == cid) = true
          · simp [hrest]
          · have hrest' : rest.any (fun x => x.category_id == cid) = false := by
              simpa using hrest
            have h0 : totalFor rest cid = 0 := by
              unfold totalFor
              have hall : ∀ x ∈ rest, ¬ (x.category_id == cid) = true := by
                simpa using hrest'
              have : rest.filter (fun x => x.category_id == cid) = [] :=
                List.filter_eq_nil_iff.mpr hall
              rw [this]
              rfl
            simp [hrest', h0]
    · have h1 : lookupBucket (bucketStep cats acc t) cid = lookupBucket acc cid := by
        unfold bucketStep
        cases cats.find? (fun c => c.id == t.category_id) with
        | none => rfl
        | some c => exact lookupBucket_addToBucket_other _ _ _ _ _ (Ne.symm hct)
      have h2 : totalFor (t :: rest) cid = totalFor rest cid := totalFor_cons_other hct rest
      have h3 : (t :: rest).any (fun x => x.category_id == cid) =
          rest.any (fun x => x.category_id == cid) := by
        simp [List.any_cons, hct]
      rw [h1, h2, h3]

theorem lookupBucket_of_mem {l : List CategorySpending}
    (hnd : (l.map (fun b => b.category_id)).Nodup) {b : CategorySpending}
    (hb : b ∈ l) : lookupBucket l b.category_id = some b := by
  cases h : lookupBucket l b.category_id with
  | none =>
    have h' : l.find? (fun x => x.category_id == b.category_id) = none := h
    have := List.find?_eq_none.mp h' b hb
    simp at this
  | some b' =>
    have h' : l.find? (fun x => x.category_id == b.category_id) = some b' := h
    have hb'mem := List.mem_of_find?_eq_some h'
    have hb'id : b'.category_id = b.category_id := by
      simpa using List.find?_some h'
    rw [List.inj_on_of_nodup_map hnd hb'mem hb hb'id]

/-- C9: `getBalanceData` over the resolved window returns the sum of the
earning-type amounts, the sum of the spending-type amounts, and their
difference as the net balance; `getCategorySpending` excludes
earning-type transactions, buckets the window's spending totals only by
`category_id`, silently drops transactions whose `category_id` matches
no known category, and returns the buckets sorted by total descending. -/
theorem balanceAndCategorySpending_spec (ts : List TxRow) (cats : List CatRow)
    (s e : JDate) :
    (getBalanceData ts s e).totalEarnings =
      (((getTransactionsByDateRange ts s e).filter (fun t => t.type == .earning)).map
        (fun t => t.amount)).sum ∧
    (getBalanceData ts s e).totalSpending =
      (((getTransactionsByDateRange ts s e).filter (fun t => t.type == .spending)).map
        (fun t => t.amount)).sum ∧
    (getBalanceData ts s e).netBalance =
      (getBalanceData ts s e).totalEarnings - (getBalanceData ts s e).totalSpending ∧
    List.Sorted spendDescOrder (getCategorySpending ts cats s e) ∧
    (∀ b ∈ getCategorySpending ts cats s e,
      ∃ c, cats.find? (fun cc => cc.id == b.category_id) = some c ∧
        b.category_name = c.name ∧
        b.total = totalFor ((getTransactionsByDateRange ts s e).filter
          (fun t => t.type == .spending)) b.category_id ∧
        ∃ t ∈ (getTransactionsByDateRange ts s e).filter (fun t => t.type == .spending),
          t.category_id = b.category_id) ∧
    (∀ cid, cats.find? (fun cc => cc.id == cid) = none →
      ∀ b ∈ getCategorySpending ts cats s e, b.category_id ≠ cid) ∧
    (∀ t ∈ (getTransactionsByDateRange ts s e).filter (fun t => t.type == .spending),
      (∃ c, cats.find? (fun cc => cc.id == t.category_id) = some c) →
      ∃ b ∈ getCategorySpending ts cats s e, b.category_id = t.category_id) := by
  have hchar : ∀ b ∈ getCategorySpending ts cats s e,
      ∃ c, cats.find? (fun cc => cc.id == b.category_id) = some c ∧
        b.category_name = c.name ∧
        b.total = totalFor ((getTransactionsByDateRange ts s e).filter
          (fun t => t.type == .spending)) b.category_id ∧
        ∃ t ∈ (getTransactionsByDateRange ts s e).filter (fun t => t.type == .spending),
          t.category_id = b.category_id := by
    intro b hb
    have hb' : b ∈ buildBuckets cats ((getTransactionsByDateRange ts s e).filter
        (fun t => t.type == .spending)) :=
      (List.mem_insertionSort spendDescOrder).mp hb
    have hnd := foldl_bucketStep_keys_nodup cats
      ((getTransactionsByDateRange ts s e).filter (fun t => t.type == .spending))
      [] (by simp)
    have hlook : lookupBucket (buildBuckets cats
        ((getTransactionsByDateRange ts s e).filter (fun t => t.type == .spending)))
        b.category_id = some b :=
      lookupBucket_of_mem hnd hb'
    rw [show buildBuckets cats ((getTransactionsByDateRange ts s e).filter
          (fun t => t.type == .spending)) =
        ((getTransactionsByDateRange ts s e).filter
          (fun t => t.type == .spending)).foldl (bucketStep cats) [] from rfl,
      lookupBucket_foldl cats b.category_id] at hlook
    cases hc : cats.find? (fun cc => cc.id == b.category_id) with
    | none =>
      rw [hc] at hlook
      simp [lookupBucket] at hlook
    | some c =>
      rw [hc] at hlook
      simp only [lookupBucket, List.find?_nil] at hlook
      by_cases hany : ((getTransactionsByDateRange ts s e).filter
          (fun t => t.type == .spending)).any
          (fun t => t.category_id == b.category_id) = true
      · rw [if_pos hany] at hlook
        have hb2 := Option.some.inj hlook
        obtain ⟨t, htmem, hteq⟩ := List.any_eq_true.mp hany
        refine ⟨c, rfl, ?_, ?_, t, htmem, by simpa using hteq⟩
        · rw [← hb2]
        · rw [← hb2]
      · rw [if_neg hany] at hlook
        exact absurd hlook (by simp)
  refine ⟨?_, ?_, rfl, List.sorted_insertionSort spendDescOrder _, hchar, ?_, ?_⟩
  · show ((getTransactionsByDateRange ts s e).filter
        (fun t => t.type == .earning)).foldl (fun s t => s + t.amount) 0 = _
    rw [foldl_add_amount]
    simp
  · show ((getTransactionsByDateRange ts s e).filter
        (fun t => t.type == .spending)).foldl (fun s t => s + t.amount) 0 = _
    rw [foldl_add_amount]
    simp
  · intro cid hnone b hb hbc
    obtain ⟨c, hc, -⟩ := hchar b hb
    rw [hbc, hnone] at hc
    exact Option.noConfusion hc
  · intro t ht hex
    obtain ⟨c, hc⟩ := hex
    have hany : ((getTransactionsByDateRange ts s e).filter
        (fun x => x.type == .spending)).any
        (fun x => x.category_id == t.category_id) = true :=
      List.any_eq_true.mpr ⟨t, ht, by simp⟩
    have hlook := lookupBucket_foldl cats t.category_id
      ((getTransactionsByDateRange ts s e).filter (fun x => x.type == .spending)) []
    rw [hc] at hlook
    simp only [lookupBucket, List.find?_nil] at hlook
    rw [if_pos hany] at hlook
    refine ⟨⟨t.category_id, c.name,
      totalFor ((getTransactionsByDateRange ts s e).filter
        (fun x => x.type == .spending)) t.category_id⟩, ?_, rfl⟩
    have hmem := List.mem_of_find?_eq_some hlook
    exact (List.mem_insertionSort spendDescOrder).mpr hmem

/-- Witness for C9: one earning of 100 and one spending of 40 within the
window give totals 100 and 40 and a net balance of 60. -/
theorem balanceAndCategorySpending_spec_witness :
    getBalanceData [exEarnTx, exSpendTx] ⟨2024, 0, 1⟩ ⟨2024, 11, 31⟩ =
      { totalEarnings := 100, totalSpending := 40, netBalance := 60 } ∧
    (getBalanceData [exEarnTx, exSpendTx] ⟨2024, 0, 1⟩ ⟨2024, 11, 31⟩).netBalance =
      (getBalanceData [exEarnTx, exSpendTx] ⟨2024, 0, 1⟩ ⟨2024, 11, 31⟩).totalEarnings -
      (getBalanceData [exEarnTx, exSpendTx] ⟨2024, 0, 1⟩ ⟨2024, 11, 31⟩).totalSpending :=
  ⟨by decide,
   (balanceAndCategorySpending_spec [exEarnTx, exSpendTx] exAggCats
     ⟨2024, 0, 1⟩ ⟨2024, 11, 31⟩).2.2.1⟩

theorem isTemplate_advanceTemplate (tid : String) (nd ts : JDate) (t : TxRow) :
    isTemplate (advanceTemplate tid nd ts t) = isTemplate t := by
  unfold isTemplate
  rw [advanceTemplate_is_subscription, advanceTemplate_parent]

theorem length_filter_map_advance (l : List TxRow) (tid : String) (nd ts : JDate) :
    ((l.map (advanceTemplate tid nd ts)).filter isTemplate).length =
      (l.filter isTemplate).length := by
  induction l with
  | nil => rfl
  | cons a t ih =>
    by_cases hp : isTemplate a = true <;>
      simp [List.filter_cons, isTemplate_advanceTemplate, hp, ih]

/-- C10: every transaction inserted by `createSubscriptionOccurrence` is
stored with `is_subscription = false` and `subscription_parent_id` equal
to the source template's id, so a generated occurrence is never a
template: it is never returned by `getDueSubscriptions` on the resulting
store at any time, a later materialization targeting it fails, and the
number of template rows is unchanged by materialization. -/
theorem occurrence_never_template (db : DB) (tid nid : String) (now : JDate)
    (db' : DB) (child : TxRow)
    (h : createSubscriptionOccurrence db tid nid now = .ok (db', child)) :
    child.is_subscription = false ∧
    child.subscription_parent_id = some tid ∧
    (∀ now2, child ∉ getDueSubscriptions db' now2) ∧
    (∀ (db2 : DB) (nid2 : String) (now2 : JDate), findTx db2 child.id = some child →
      createSubscriptionOccurrence db2 child.id nid2 now2 = .error .invalidSubscription) ∧
    (db'.transactions.filter isTemplate).length =
      (db.transactions.filter isTemplate).length := by
  unfold createSubscriptionOccurrence at h
  cases hf : findTx db tid with
  | none =>
    rw [hf] at h
    exact absurd h (by simp)
  | some parent =>
    rw [hf] at h
    replace h : (if (!parent.is_subscription) = true
        then Except.error StoreError.invalidSubscription
        else Except.ok (occInsert db tid nid now parent)) = Except.ok (db', child) := h
    by_cases hs : parent.is_subscription = true
    · rw [if_neg (by simp [hs])] at h
      have hpair := Except.ok.inj h
      have hdb : db' = (occInsert db tid nid now parent).1 := by
        rw [hpair]
      have hchild : child = (occInsert db tid nid now parent).2 := by
        rw [hpair]
      have hcsub : child.is_subscription = false := by rw [hchild]; rfl
      have hcpar : child.subscription_parent_id = some tid := by rw [hchild]; rfl
      refine ⟨hcsub, hcpar, ?_, ?_, ?_⟩
      · intro now2 hmem
        have hmem' : child ∈ db'.transactions.filter (isDueTemplate now2) :=
          (List.mem_insertionSort dueOrder).mp hmem
        have hdue : isDueTemplate now2 child = true :=
          (List.mem_filter.mp hmem').2
        obtain ⟨-, hpar, -⟩ := (isDueTemplate_iff now2 child).mp hdue
        rw [hcpar] at hpar
        exact Option.noConfusion hpar
      · intro db2 nid2 now2 hfind2
        exact createOcc_error_of_not_sub nid2 now2 hfind2 hcsub
      · rw [hdb]
        show (((db.transactions ++ [(occInsert db tid nid now parent).2]).map
          (advanceTemplate tid _ now)).filter isTemplate).length = _
        rw [length_filter_map_advance, List.filter_append]
        have hct : isTemplate (occInsert db tid nid now parent).2 = false := by
          unfold isTemplate
          rw [← hchild, hcsub]
          rfl
        simp [List.filter_cons, hct]
    · rw [if_pos (by simp [hs])] at h
      exact absurd h (by simp)

/-- Witness for C10: the child generated from the fixture template is
not a subscription and points back at the template. -/
theorem occurrence_never_template_witness :
    (occInsert exDb "t1" "n1" ⟨2024, 2, 2⟩ exTmpl).2.is_subscription = false ∧
    (occInsert exDb "t1" "n1" ⟨2024, 2, 2⟩ exTmpl).2.subscription_parent_id
      = some "t1" := by
  have h := occurrence_never_template exDb "t1" "n1" ⟨2024, 2, 2⟩
    (occInsert exDb "t1" "n1" ⟨2024, 2, 2⟩ exTmpl).1
    (occInsert exDb "t1" "n1" ⟨2024, 2, 2⟩ exTmpl).2 rfl
  exact ⟨h.1, h.2.1⟩

theorem createOcc_ok_pair {db : DB} {tid : String} {parent : TxRow}
    (nid : String) (now : JDate)
    (hfind : findTx db tid = some parent)
    (hsub : parent.is_subscription = true) :
    createSubscriptionOccurrence db tid nid now =
      .ok (occState db tid nid now parent,
           occChild tid nid (parent.next_occurrence.getD now) now parent) := by
  rw [createOcc_ok_eq nid now hfind hsub]
  rfl

theorem occState_transactions (db : DB) (tid nid : String) (now : JDate)
    (parent : TxRow) :
    (occState db tid nid now parent).transactions =
      (db.transactions ++ [occChild tid nid (parent.next_occurrence.getD now) now parent]).map
        (advanceTemplate tid (computeNextOccurrence (parent.next_occurrence.getD now)
          parent.subscription_interval parent.subscription_custom_months) now) := rfl

theorem occState_length (db : DB) (tid nid : String) (now : JDate)
    (parent : TxRow) :
    (occState db tid nid now parent).transactions.length =
      db.transactions.length + 1 := by
  rw [occState_transactions]
  simp

theorem findTx_occState (db : DB) (tid nid : String) (now : JDate)
    (parent : TxRow) (x : String) (hx : x ≠ nid) :
    findTx (occState db tid nid now parent) x =
      (findTx db x).map
        (advanceTemplate tid (computeNextOccurrence (parent.next_occurrence.getD now)
          parent.subscription_interval parent.subscription_custom_months) now) := by
  show (occState db tid nid now parent).transactions.find? (fun t => t.id == x) = _
  rw [occState_transactions, List.map_append, List.find?_append,
    find?_map_of_pred _ _ (fun a => by simp [advanceTemplate_id]) db.transactions]
  have hnone : List.find? (fun t => t.id == x)
      ([occChild tid nid (parent.next_occurrence.getD now) now parent].map
        (advanceTemplate tid (computeNextOccurrence (parent.next_occurrence.getD now)
          parent.subscription_interval parent.subscription_custom_months) now)) = none := by
    have hid : (advanceTemplate tid (computeNextOccurrence (parent.next_occurrence.getD now)
        parent.subscription_interval parent.subscription_custom_months) now
        (occChild tid nid (parent.next_occurrence.getD now) now parent)).id = nid := by
      rw [advanceTemplate_id]
      rfl
    have hb : (nid == x) = false := beq_eq_false_iff_ne.mpr (fun h => hx h.symm)
    simp [List.find?_cons, hid, hb]
  rw [hnone,
    show findTx db x = db.transactions.find? (fun t => t.id == x) from rfl]
  cases db.transactions.find? (fun t => t.id == x) <;> rfl

theorem processList_le (now : JDate) (gen : Nat → String) :
    ∀ (l : List TxRow) (i : Nat) (db : DB),
      (processList now gen i db l).2 ≤ l.length := by
  intro l
  induction l with
  | nil => intro i db; simp [processList]
  | cons sub rest ih =>
    intro i db
    cases h : createSubscriptionOccurrence db sub.id (gen i) now with
    | ok p =>
      obtain ⟨db2, c⟩ := p
      simp only [processList, h, List.length_cons]
      have := ih (i + 1) db2
      omega
    | error e =>
      simp only [processList, h, List.length_cons]
      have := ih (i + 1) db
      omega

theorem processList_error_skip (now : JDate) (gen : Nat → String) (i : Nat)
    (db0 : DB) (sub : TxRow) (rest : List TxRow) (e : StoreError)
    (h : createSubscriptionOccurrence db0 sub.id (gen i) now = .error e) :
    processList now gen i db0 (sub :: rest) = processList now gen (i + 1) db0 rest := by
  simp only [processList, h]

theorem processList_all_ok (now : JDate) (gen : Nat → String) :
    ∀ (l : List TxRow) (i : Nat) (db : DB),
      (∀ sub ∈ l, ∃ r, findTx db sub.id = some r ∧ r.is_subscription = true) →
      (∀ j, i ≤ j → j < i + l.length → ∀ t ∈ db.transactions, gen j ≠ t.id) →
      (∀ j, i ≤ j → j < i + l.length → ∀ k, i ≤ k → k < i + l.length →
        gen j = gen k → j = k) →
      (processList now gen i db l).2 = l.length ∧
      (processList now gen i db l).1.transactions.length =
        db.transactions.length + l.length := by
  intro l
  induction l with
  | nil =>
    intro i db _ _ _
    exact ⟨rfl, by simp [processList]⟩
  | cons sub rest ih =>
    intro i db H1 H2 H3
    obtain ⟨r, hfr, hrs⟩ := H1 sub (List.mem_cons_self sub rest)
    have hok := createOcc_ok_pair (gen i) now hfr hrs
    simp only [processList, hok, List.length_cons]
    have hstep := ih (i + 1) (occState db sub.id (gen i) now r) ?_ ?_ ?_
    · exact ⟨by rw [hstep.1], by rw [hstep.2, occState_length]; omega⟩
    · intro sub' hmem
      obtain ⟨r', hfr', hrs'⟩ := H1 sub' (List.mem_cons_of_mem sub hmem)
      have hfr'' : db.transactions.find? (fun t => t.id == sub'.id) = some r' := hfr'
      have hrmem : r' ∈ db.transactions := List.mem_of_find?_eq_some hfr''
      have hrid : r'.id = sub'.id := by simpa using List.find?_some hfr''
      have hxid : sub'.id ≠ gen i := by
        intro hcontra
        have hni := H2 i (Nat.le_refl i) (by simp) r' hrmem
        rw [hrid] at hni
        exact hni hcontra.symm
      refine ⟨advanceTemplate sub.id (computeNextOccurrence (r.next_occurrence.getD now)
        r.subscription_interval r.subscription_custom_months) now r', ?_, ?_⟩
      · rw [findTx_occState db sub.id (gen i) now r sub'.id hxid,
          show findTx db sub'.id = some r' from hfr']
        rfl
      · rw [advanceTemplate_is_subscription]
        exact hrs'
    · intro j hj1 hj2 t ht
      have ht' : t ∈ (occState db sub.id (gen i) now r).transactions := ht
      rw [occState_transactions] at ht'
      obtain ⟨t0, ht0mem, ht0eq⟩ := List.mem_map.mp ht'
      rcases List.mem_append.mp ht0mem with hin | hnew
      · have hid : t.id = t0.id := by rw [← ht0eq, advanceTemplate_id]
        rw [hid]
        refine H2 j (by omega) (by simp; omega) t0 hin
      · have ht0 : t0 = occChild sub.id (gen i) (r.next_occurrence.getD now) now r := by
          simpa using hnew
        have hid : t.id = gen i := by
          rw [← ht0eq, advanceTemplate_id, ht0]
          rfl
        rw [hid]
        intro hcontra
        have hji := H3 j (by omega) (by simp; omega) i (Nat.le_refl i) (by simp) hcontra
        omega
    · intro j hj1 hj2 k hk1 hk2 hjk
      exact H3 j (by omega) (by simp; omega) k (by omega) (by simp; omega) hjk

/-- C4: `processSubscriptions` is total — every per-template error is
caught inside the loop, so it never throws. It walks the due templates
returned by `getDueSubscriptions` in order; a failing template is
skipped without affecting the processing of the rest (third conjunct),
and the returned count never exceeds the number of due templates (fourth
conjunct) since it counts exactly the successful materializations. When
the stored transaction ids are distinct and the generated UUIDs are
fresh and pairwise distinct — as in any run of the real store — every
due template is materialized exactly once: the returned count equals the
number of due templates and exactly one transaction is inserted per due
template. -/
theorem processSubscriptions_spec (db : DB) (now : JDate) (gen : Nat → String)
    (hids : (db.transactions.map (fun t => t.id)).Nodup)
    (hfresh : ∀ i, i < (getDueSubscriptions db now).length →
      ∀ t ∈ db.transactions, gen i ≠ t.id)
    (hinj : ∀ i, i < (getDueSubscriptions db now).length →
      ∀ j, j < (getDueSubscriptions db now).length → gen i = gen j → i = j) :
    (processSubscriptions db now gen).2 = (getDueSubscriptions db now).length ∧
    (processSubscriptions db now gen).1.transactions.length =
      db.transactions.length + (getDueSubscriptions db now).length ∧
    (∀ (db0 : DB) (i : Nat) (sub : TxRow) (rest : List TxRow) (e : StoreError),
      createSubscriptionOccurrence db0 sub.id (gen i) now = .error e →
      processList now gen i db0 (sub :: rest) =
        processList now gen (i + 1) db0 rest) ∧
    (∀ (db0 : DB) (l : List TxRow) (i : Nat),
      (processList now gen i db0 l).2 ≤ l.length) := by
  have hmain := processList_all_ok now gen (getDueSubscriptions db now) 0 db ?_ ?_ ?_
  · exact ⟨hmain.1, hmain.2,
      fun db0 i sub rest e h => processList_error_skip now gen i db0 sub rest e h,
      fun db0 l i => processList_le now gen l i db0⟩
  · intro sub hmem
    have hmem' : sub ∈ db.transactions.filter (isDueTemplate now) :=
      (List.mem_insertionSort dueOrder).mp hmem
    have hsubmem : sub ∈ db.transactions := (List.mem_filter.mp hmem').1
    obtain ⟨hsub, -, -⟩ :=
      (isDueTemplate_iff now sub).mp (List.mem_filter.mp hmem').2
    cases hf : findTx db sub.id with
    | none =>
      have hf' : db.transactions.find? (fun t => t.id == sub.id) = none := hf
      exact absurd (by simp : (sub.id == sub.id) = true)
        (List.find?_eq_none.mp hf' sub hsubmem)
    | some r =>
      have hf' : db.transactions.find? (fun t => t.id == sub.id) = some r := hf
      have hrmem := List.mem_of_find?_eq_some hf'
      have hrid : r.id = sub.id := by simpa using List.find?_some hf'
      have hrs : r = sub := List.inj_on_of_nodup_map hids hrmem hsubmem hrid
      exact ⟨r, rfl, by rw [hrs]; exact hsub⟩
  · intro j _ hjlen t ht
    exact hfresh j (by omega) t ht
  · intro j _ hjlen k _ hklen hjk
    exact hinj j (by omega) k (by omega) hjk

/-- Witness for C4: the fixture store holds one due template, and one
run of `processSubscriptions` materializes exactly one occurrence. -/
theorem processSubscriptions_spec_witness :
    (processSubscriptions exDb ⟨2024, 2, 2⟩ (fun _ => "w1")).2 = 1 := by
  have h := processSubscriptions_spec exDb ⟨2024, 2, 2⟩ (fun _ => "w1")
    (by decide) (by decide) (by decide)
  rw [h.1]
  decide

end FinTrack
